import Mathlib

/-!
# Verification of the Moltbot Zone-1 executor against its specification

Shallow embedding of the security core under `src/security/zone1`
(`policy.py`, `kill_switch.py`, `audit.py`, `canary.py`, `executor.py`,
`credentials.py`) together with theorems settling the frozen claims about
it.  Machine-level effects (sockets, files, the sops subprocess, wall
clocks) are passed in explicitly: timestamps are `String`/`Rat`
parameters, the secret store and the external integrations are an
environment record, and the audit "disk" is the list of parsed events of
one run (a fresh logger writing one day file).
-/

namespace Moltbot

/-! ## SHA-256 (pure, over byte lists, word arithmetic mod 2^32)

Embeds `hashlib.sha256(content.encode()).hexdigest()` from `audit.py`:
UTF-8 encode, pad, 64-round compression, lowercase hex digest. -/

/-- 2^32, the word modulus. -/
def M32 : Nat := 4294967296

/-- Rotate a word right by `n` bits, staying below `M32`. -/
def rotr (n x : Nat) : Nat := ((x >>> n) ||| (x <<< (32 - n))) % M32

/-- σ0 message-schedule function. -/
def ssig0 (x : Nat) : Nat := (rotr 7 x) ^^^ (rotr 18 x) ^^^ (x >>> 3)

/-- σ1 message-schedule function. -/
def ssig1 (x : Nat) : Nat := (rotr 17 x) ^^^ (rotr 19 x) ^^^ (x >>> 10)

/-- Σ0 compression function. -/
def bsig0 (x : Nat) : Nat := (rotr 2 x) ^^^ (rotr 13 x) ^^^ (rotr 22 x)

/-- Σ1 compression function. -/
def bsig1 (x : Nat) : Nat := (rotr 6 x) ^^^ (rotr 11 x) ^^^ (rotr 25 x)

/-- The 64 round constants (FIPS 180-4 §4.2.2), written in decimal. -/
def kConst : List Nat :=
  [1116352408, 1899447441, 3049323471, 3921009573, 961987163,
   1508970993, 2453635748, 2870763221, 3624381080, 310598401,
   607225278, 1426881987, 1925078388, 2162078206, 2614888103,
   3248222580, 3835390401, 4022224774, 264347078, 604807628,
   770255983, 1249150122, 1555081692, 1996064986, 2554220882,
   2821834349, 2952996808, 3210313671, 3336571891, 3584528711,
   113926993, 338241895, 666307205, 773529912, 1294757372,
   1396182291, 1695183700, 1986661051, 2177026350, 2456956037,
   2730485921, 2820302411, 3259730800, 3345764771, 3516065817,
   3600352804, 4094571909, 275423344, 430227734, 506948616,
   659060556, 883997877, 958139571, 1322822218, 1537002063,
   1747873779, 1955562222, 2024104815, 2227730452, 2361852424,
   2428436474, 2756734187, 3204031479, 3329325298]

/-- The initial hash state (FIPS 180-4 §5.3.3), written in decimal. -/
def initH : List Nat :=
  [1779033703, 3144134277, 1013904242, 2773480762,
   1359893119, 2600822924, 528734635, 1541459225]

/-- Big-endian 8-byte encoding of the bit length. -/
def lenBytes (n : Nat) : List Nat :=
  (List.range 8).map (fun i => (n >>> ((7 - i) * 8)) % 256)

/-- Merkle–Damgård padding: 0x80, zeros to 56 mod 64, 8 length bytes. -/
def padBytes (msg : List Nat) : List Nat :=
  msg ++ [128] ++ List.replicate ((119 - msg.length % 64) % 64) 0
      ++ lenBytes (msg.length * 8)

/-- Big-endian packing of bytes into 32-bit words. -/
def bytesToWords : List Nat → List Nat
  | a :: b :: c :: d :: rest =>
      ((a <<< 24) ||| (b <<< 16) ||| (c <<< 8) ||| d) :: bytesToWords rest
  | _ => []

/-- Split a word list into 16-word blocks (fuel-driven, fuel ≥ length). -/
def chunksAux : Nat → List Nat → List (List Nat)
  | 0, _ => []
  | _ + 1, [] => []
  | n + 1, l => l.take 16 :: chunksAux n (l.drop 16)

/-- Split a word list into 16-word blocks. -/
def chunks (l : List Nat) : List (List Nat) := chunksAux l.length l

/-- Extend a 16-word block by `n` schedule words. -/
def extendSchedule : Nat → List Nat → List Nat
  | 0, w => w
  | n + 1, w =>
      let i := w.length
      let nw := (w.getD (i - 16) 0 + ssig0 (w.getD (i - 15) 0)
                 + w.getD (i - 7) 0 + ssig1 (w.getD (i - 2) 0)) % M32
      extendSchedule n (w ++ [nw])

/-- One SHA-256 round: state is the 8-word list, input is `(kᵢ, wᵢ)`. -/
def compressStep (st : List Nat) (kw : Nat × Nat) : List Nat :=
  match st with
  | [a, b, c, d, e, f, g, h] =>
      let ch := (e &&& f) ^^^ ((e ^^^ 4294967295) &&& g)
      let t1 := (h + bsig1 e + ch + kw.1 + kw.2) % M32
      let maj := (a &&& b) ^^^ (a &&& c) ^^^ (b &&& c)
      let t2 := (bsig0 a + maj) % M32
      [(t1 + t2) % M32, a, b, c, (d + t1) % M32, e, f, g]
  | other => other

/-- Process one 16-word block against the running hash. -/
def processBlock (h : List Nat) (block : List Nat) : List Nat :=
  let w := extendSchedule 48 block
  let st := (kConst.zip w).foldl compressStep h
  (h.zip st).map (fun p => (p.1 + p.2) % M32)

/-- One lowercase hexadecimal digit. -/
def hexDigit (n : Nat) : Char :=
  if n < 10 then Char.ofNat (48 + n) else Char.ofNat (87 + n)

/-- Eight-hex-digit rendering of a 32-bit word. -/
def toHex8 (n : Nat) : String :=
  ⟨(List.range 8).map (fun i => hexDigit ((n >>> ((7 - i) * 4)) % 16))⟩

/-- SHA-256 of a byte list, as a lowercase hex string. -/
def sha256Bytes (msg : List Nat) : String :=
  let blocks := chunks (bytesToWords (padBytes msg))
  String.join ((blocks.foldl processBlock initH).map toHex8)

/-- UTF-8 encoding of one character. -/
def utf8Char (c : Char) : List Nat :=
  let n := c.toNat
  if n < 128 then [n]
  else if n < 2048 then [192 + n / 64, 128 + n % 64]
  else if n < 65536 then [224 + n / 4096, 128 + (n / 64) % 64, 128 + n % 64]
  else [240 + n / 262144, 128 + (n / 4096) % 64, 128 + (n / 64) % 64,
        128 + n % 64]

/-- UTF-8 encoding of a string. -/
def utf8Bytes (s : String) : List Nat := s.data.flatMap utf8Char

/-- `hashlib.sha256(s.encode()).hexdigest()`. -/
def sha256 (s : String) : String := sha256Bytes (utf8Bytes s)

/-! ## JSON values and Python's `json.dumps(…, sort_keys=True)`

The executor and audit log serialize dictionaries with `json.dumps`; the
audit hash uses `sort_keys=True`.  The value universe is stratified to
the two levels the zone-1 core actually passes around: atoms (`JVal`),
one-level arrays/dicts of atoms (`Json`, e.g. a `details` or `params`
dict), and top-level dicts whose values may themselves be such dicts
(`JTop` fields, e.g. the audit `event_data`).  `dumps` renders with
Python's default separators `", "` and `": "`, `ensure_ascii` escaping,
and sorted keys. -/

/-- An atomic JSON value. -/
inductive JVal where
  | null
  | bool (b : Bool)
  | num (n : Int)
  | str (s : String)
deriving DecidableEq

/-- Four hex digits, for `\uXXXX` escapes. -/
def hex4 (n : Nat) : String :=
  ⟨(List.range 4).map (fun i => hexDigit ((n >>> ((3 - i) * 4)) % 16))⟩

/-- Python `json` escaping of one character (`ensure_ascii=True`). -/
def escChar (c : Char) : String :=
  if c = '"' then "\\\""
  else if c = '\\' then "\\\\"
  else if c.toNat = 10 then "\\n"
  else if c.toNat = 13 then "\\r"
  else if c.toNat = 9 then "\\t"
  else if c.toNat = 8 then "\\b"
  else if c.toNat = 12 then "\\f"
  else if c.toNat < 32 then "\\u" ++ hex4 c.toNat
  else if c.toNat < 127 then String.singleton c
  else if c.toNat < 65536 then "\\u" ++ hex4 c.toNat
  else "\\u" ++ hex4 (55296 + (c.toNat - 65536) / 1024)
       ++ "\\u" ++ hex4 (56320 + (c.toNat - 65536) % 1024)

/-- A JSON string literal. -/
def qstr (s : String) : String :=
  "\"" ++ String.join (s.data.map escChar) ++ "\""

/-- Code-point lexicographic order on character lists, Python's `<` on
`str`. -/
def charListLt : List Char → List Char → Bool
  | [], [] => false
  | [], _ :: _ => true
  | _ :: _, [] => false
  | c :: cs, d :: ds =>
      if c.toNat < d.toNat then true
      else if d.toNat < c.toNat then false
      else charListLt cs ds

/-- Python's `<` on strings. -/
def strLt (a b : String) : Bool := charListLt a.data b.data

/-- Python's slice `s[:n]` (by code points). -/
def strTake (s : String) (n : Nat) : String := ⟨s.data.take n⟩

/-- Insert a rendered key/value pair keeping keys sorted (stable). -/
def insertPair (p : String × String) :
    List (String × String) → List (String × String)
  | [] => [p]
  | q :: t => if strLt p.1 q.1 then p :: q :: t else q :: insertPair p t

/-- Stable sort of rendered pairs by key, Python's `sorted` on dict items. -/
def sortPairs (l : List (String × String)) : List (String × String) :=
  l.foldl (fun acc p => insertPair p acc) []

/-- Render an atomic value. -/
def dumpVal : JVal → String
  | .null => "null"
  | .bool true => "true"
  | .bool false => "false"
  | .num n => toString n
  | .str s => qstr s

/-- A one-level JSON value: an atom, or an array/dict of atoms. -/
inductive Json where
  | atom (v : JVal)
  | arr (elems : List JVal)
  | obj (fields : List (String × JVal))
deriving DecidableEq

/-- `json.dumps(v, sort_keys=True)` of a one-level value. -/
def dumps : Json → String
  | .atom v => dumpVal v
  | .arr l => "[" ++ String.intercalate ", " (l.map dumpVal) ++ "]"
  | .obj l =>
      "\x7b" ++ String.intercalate ", "
        ((sortPairs (l.map fun kv => (kv.1, dumpVal kv.2))).map
          fun p => qstr p.1 ++ ": " ++ p.2)
      ++ "\x7d"

/-- A top-level dict field value: an atom, or a nested one-level value. -/
inductive JTop where
  | val (v : JVal)
  | nested (j : Json)
deriving DecidableEq

/-- Render a top-level dict field value. -/
def dumpTop : JTop → String
  | .val v => dumpVal v
  | .nested j => dumps j

/-- `json.dumps(d, sort_keys=True)` of a top-level dict. -/
def dumpsObj (l : List (String × JTop)) : String :=
  "\x7b" ++ String.intercalate ", "
    ((sortPairs (l.map fun kv => (kv.1, dumpTop kv.2))).map
      fun p => qstr p.1 ++ ": " ++ p.2)
  ++ "\x7d"

/-! ## Audit log (`audit.py`)

`AuditLogger` keeps the running tail hash and, as the model of one run's
on-disk state, the parsed events of the single day file a fresh logger
appends to (`_load_chain_state` on a fresh directory returns
`"GENESIS"`).  `verify_chain` is modelled on those parsed lines; the
round trip through `json.dumps(asdict(event))`/`json.loads` is the
identity on them. -/

/-- The closed set of audit event kinds. -/
inductive AuditEventType where
  | action_requested | action_approved | action_rejected | action_executed
  | action_failed | policy_denied | kill_switch_triggered | anomaly_detected
  | content_sanitized | injection_detected | auth_attempt | config_changed
  | system_start | system_stop
deriving DecidableEq

/-- The `.value` string of an event kind. -/
def AuditEventType.value : AuditEventType → String
  | .action_requested => "action_requested"
  | .action_approved => "action_approved"
  | .action_rejected => "action_rejected"
  | .action_executed => "action_executed"
  | .action_failed => "action_failed"
  | .policy_denied => "policy_denied"
  | .kill_switch_triggered => "kill_switch_triggered"
  | .anomaly_detected => "anomaly_detected"
  | .content_sanitized => "content_sanitized"
  | .injection_detected => "injection_detected"
  | .auth_attempt => "auth_attempt"
  | .config_changed => "config_changed"
  | .system_start => "system_start"
  | .system_stop => "system_stop"

/-- One audit event as written to (and read back from) the day file. -/
structure AuditEvent where
  timestamp : String
  event_type : String
  action : Option String
  actor : String
  source_zone : String
  details : Json
  request_id : Option String
  previous_hash : String
  event_hash : String
deriving DecidableEq

/-- `None`-or-string as a JSON atom. -/
def optStr : Option String → JVal
  | none => .null
  | some s => .str s

/-- The `event_data` dict hashed by `log` and `verify_chain`. -/
def eventDataJson (timestamp event_type : String) (action : Option String)
    (actor source_zone : String) (details : Json)
    (request_id : Option String) : List (String × JTop) :=
  [("timestamp", .val (.str timestamp)), ("event_type", .val (.str event_type)),
   ("action", .val (optStr action)), ("actor", .val (.str actor)),
   ("source_zone", .val (.str source_zone)), ("details", .nested details),
   ("request_id", .val (optStr request_id))]

/-- `AuditLogger._compute_hash`: SHA-256 of canonical JSON ++ previous. -/
def compute_hash (event_data : List (String × JTop)) (previous_hash : String) :
    String :=
  sha256 (dumpsObj event_data ++ previous_hash)

/-- The `event_data` dict reconstructed from a stored event's fields. -/
def eventDataOf (e : AuditEvent) : List (String × JTop) :=
  eventDataJson e.timestamp e.event_type e.action e.actor e.source_zone
    e.details e.request_id

/-- Logger state: the persisted tail hash plus the day file's lines. -/
structure AuditLogger where
  previous_hash : String
  lines : List AuditEvent
deriving DecidableEq

/-- A fresh logger over an empty directory. -/
def AuditLogger.start : AuditLogger := ⟨"GENESIS", []⟩

/-- One call to `AuditLogger.log`, with the wall-clock timestamp it read. -/
structure LogRequest where
  timestamp : String
  event_type : AuditEventType
  action : Option String := none
  actor : String := "system"
  source_zone : String := "zone1"
  details : Option Json := none
  request_id : Option String := none
deriving DecidableEq

/-- `AuditLogger.log`: hash the canonical event data against the running
tail, append the event to the day file, advance the tail. -/
def AuditLogger.log (lg : AuditLogger) (r : LogRequest) :
    AuditEvent × AuditLogger :=
  let event_data := eventDataJson r.timestamp r.event_type.value r.action
    r.actor r.source_zone (r.details.getD (.obj [])) r.request_id
  let event_hash := compute_hash event_data lg.previous_hash
  let e : AuditEvent :=
    ⟨r.timestamp, r.event_type.value, r.action, r.actor, r.source_zone,
     r.details.getD (.obj []), r.request_id, lg.previous_hash, event_hash⟩
  (e, ⟨event_hash, lg.lines ++ [e]⟩)

/-- Append a sequence of events. -/
def AuditLogger.logMany : AuditLogger → List LogRequest → AuditLogger
  | lg, [] => lg
  | lg, r :: rest => ((lg.log r).2).logMany rest

/-- The "Chain broken" error line of `verify_chain`. -/
def chainErr (fname : String) (n : Nat) (expected got : String) : String :=
  fname ++ ":" ++ toString n ++ ": Chain broken - expected "
    ++ strTake expected 8 ++ "..., got " ++ strTake got 8 ++ "..."

/-- The "Hash mismatch" error line of `verify_chain`. -/
def mismatchErr (fname : String) (n : Nat) : String :=
  fname ++ ":" ++ toString n ++ ": Hash mismatch - event may have been tampered"

/-- The per-line loop of `verify_chain`: chain-link check, then hash
recomputation, threading the stored `event_hash` forward. -/
def verifyLines (fname : String) : Nat → String → List AuditEvent → List String
  | _, _, [] => []
  | n, prev, e :: rest =>
      (if e.previous_hash ≠ prev then [chainErr fname n prev e.previous_hash]
       else [])
      ++ (if compute_hash (eventDataOf e) e.previous_hash ≠ e.event_hash
          then [mismatchErr fname n] else [])
      ++ verifyLines fname (n + 1) e.event_hash rest

/-- `AuditLogger.verify_chain` over one file's parsed lines. -/
def verify_chain (fname : String) (events : List AuditEvent) :
    Bool × List String :=
  let errors := verifyLines fname 1 "GENESIS" events
  (errors.length == 0, errors)


/-! ## Policy engine (`policy.py`) -/

/-- An apostrophe, for building the source's quoted message strings. -/
def sq : String := Char.toString (Char.ofNat 39)

/-- Approval levels. -/
inductive ApprovalLevel where
  | NONE | NOTIFY | APPROVE
deriving DecidableEq

/-- The `.value` string of an approval level. -/
def ApprovalLevel.value : ApprovalLevel → String
  | .NONE => "none"
  | .NOTIFY => "notify"
  | .APPROVE => "approve"

/-- One action descriptor. -/
structure ActionPolicy where
  requires_approval : ApprovalLevel
  rate_limit : String
  description : String
deriving DecidableEq

/-- The static action descriptor table, in source order. -/
def ALLOWED_ACTIONS : List (String × ActionPolicy) :=
  [("send_email", ⟨.APPROVE, "10/hour", "Send email via Gmail API"⟩),
   ("send_telegram", ⟨.APPROVE, "50/hour", "Send Telegram message"⟩),
   ("send_slack", ⟨.APPROVE, "50/hour", "Send Slack message"⟩),
   ("make_call", ⟨.APPROVE, "5/hour", "Make phone call via Twilio"⟩),
   ("send_sms", ⟨.APPROVE, "20/hour", "Send SMS via Twilio"⟩),
   ("read_email", ⟨.NONE, "100/hour", "Read emails (no approval needed)"⟩),
   ("read_telegram", ⟨.NONE, "100/hour", "Read Telegram messages"⟩),
   ("read_slack", ⟨.NONE, "100/hour", "Read Slack messages"⟩)]

/-- Dict lookup in the descriptor table. -/
def lookupAction (a : String) : Option ActionPolicy :=
  (ALLOWED_ACTIONS.find? (fun p => p.1 == a)).map (fun p => p.2)

/-- The engine's mutable state: `rate_counts` with `.get(action, 0)`. -/
structure PolicyEngine where
  rate_counts : String → Nat

/-- A fresh engine (`rate_counts = {}`). -/
def PolicyEngine.start : PolicyEngine := ⟨fun _ => 0⟩

/-- Dict store `rate_counts[action] = n`. -/
def setCount (f : String → Nat) (a : String) (n : Nat) : String → Nat :=
  fun x => if x = a then n else f x

/-- Decimal digits to a number, Python's `int` on a digit string. -/
def digitsToNat (l : List Char) : Nat :=
  l.foldl (fun acc c => acc * 10 + (c.toNat - 48)) 0

/-- `int(limit.split("/")[0])`. -/
def rateCapCount (limit : String) : Nat :=
  digitsToNat (limit.data.takeWhile (fun c => c != '/'))

/-- `PolicyEngine._check_rate_limit`: refuse at the cap, else increment. -/
def check_rate_limit (pe : PolicyEngine) (action : String) (limit : String) :
    Bool × PolicyEngine :=
  let max_count := rateCapCount limit
  let current := pe.rate_counts action
  if current ≥ max_count then (false, pe)
  else (true, ⟨setCount pe.rate_counts action (current + 1)⟩)

/-- `PolicyEngine.reset_rate_limits`. -/
def reset_rate_limits (_ : PolicyEngine) : PolicyEngine := ⟨fun _ => 0⟩

/-- The result dict of `check_action` (absent keys are `none`). -/
structure PolicyResult where
  allowed : Bool
  error : Option String := none
  message : Option String := none
  requires_approval : Bool := false
  approval_level : Option String := none
  description : Option String := none
deriving DecidableEq

/-- `PolicyEngine.check_action` (the `params` argument is unused, as in
the source). -/
def check_action (pe : PolicyEngine) (action : String) (_params : Json) :
    PolicyResult × PolicyEngine :=
  match lookupAction action with
  | none =>
      ({ allowed := false, error := some "action_not_allowed",
         message := some ("Action " ++ sq ++ action ++ sq
           ++ " is not in the allowed actions list") }, pe)
  | some policy =>
      let rl := check_rate_limit pe action policy.rate_limit
      if !rl.1 then
        ({ allowed := false, error := some "rate_limited",
           message := some ("Rate limit exceeded for " ++ sq ++ action ++ sq
             ++ ": " ++ policy.rate_limit) }, rl.2)
      else
        ({ allowed := true,
           requires_approval := policy.requires_approval != ApprovalLevel.NONE,
           approval_level := some policy.requires_approval.value,
           description := some policy.description }, rl.2)

/-! ## Kill switch and anomaly detector (`kill_switch.py`) -/

/-- The kill reason taxonomy. -/
inductive KillReason where
  | MANUAL | ANOMALY_DETECTED | RATE_LIMIT_EXCEEDED | SECURITY_BREACH
  | TELEGRAM_COMMAND | FILE_TRIGGER
deriving DecidableEq

/-- The `.value` string of a kill reason. -/
def KillReason.value : KillReason → String
  | .MANUAL => "manual"
  | .ANOMALY_DETECTED => "anomaly_detected"
  | .RATE_LIMIT_EXCEEDED => "rate_limit_exceeded"
  | .SECURITY_BREACH => "security_breach"
  | .TELEGRAM_COMMAND => "telegram_command"
  | .FILE_TRIGGER => "file_trigger"

/-- One kill event. -/
structure KillEvent where
  timestamp : String
  reason : KillReason
  details : String
  triggered_by : String
deriving DecidableEq

/-- The switch state `{_active, _killed, _kill_event}` (watcher threads
and the marker file are external effects). -/
structure KillSwitch where
  active : Bool
  killed : Bool
  kill_event : Option KillEvent
deriving DecidableEq

/-- A fresh switch. -/
def KillSwitch.start : KillSwitch := ⟨true, false, none⟩

/-- `KillSwitch.trigger` on the switch state alone: idempotent once
killed with a live event; the `ts` argument is the wall clock it reads.
Callback side effects (`_execute_shutdown`) are applied by the executor
wrapper `ZoneExecutor.triggerKill`. -/
def KillSwitch.trigger (ks : KillSwitch) (reason : KillReason)
    (details triggered_by ts : String) : KillEvent × KillSwitch :=
  match ks.kill_event, ks.killed with
  | some e, true => (e, ks)
  | _, _ =>
      let e : KillEvent := ⟨ts, reason, details, triggered_by⟩
      (e, { ks with killed := true, kill_event := some e })

/-- The per-action sliding windows `_action_counts` with default `[]`. -/
structure AnomalyDetector where
  action_counts : String → List Rat

/-- A fresh detector. -/
def AnomalyDetector.start : AnomalyDetector := ⟨fun _ => []⟩

/-- Dict store `_action_counts[action] = w`. -/
def setWindow (f : String → List Rat) (a : String) (w : List Rat) :
    String → List Rat :=
  fun x => if x = a then w else f x

/-- The hard-coded per-action thresholds, default 100. -/
def threshold (action : String) : Nat :=
  if action = "send_email" then 20
  else if action = "send_sms" then 30
  else if action = "make_call" then 10
  else if action = "send_telegram" then 50
  else if action = "send_slack" then 50
  else 100

/-- `AnomalyDetector.record_action`: purge entries at or before
`now − 60`, append `now`, compare against the threshold; on exceed,
trigger the kill switch with `RATE_LIMIT_EXCEEDED` and return false. -/
def record_action (det : AnomalyDetector) (ks : KillSwitch) (action : String)
    (now : Rat) (ts : String) : Bool × AnomalyDetector × KillSwitch :=
  let window_start := now - 60
  let win := (det.action_counts action).filter (fun t => decide (t > window_start))
    ++ [now]
  let det' : AnomalyDetector := ⟨setWindow det.action_counts action win⟩
  let count := win.length
  let th := threshold action
  if count > th then
    let tr := ks.trigger .RATE_LIMIT_EXCEEDED
      ("Action " ++ sq ++ action ++ sq ++ " exceeded rate limit: "
        ++ toString count ++ "/" ++ toString th ++ " per minute")
      "anomaly_detector" ts
    (false, det', tr.2)
  else (true, det', ks)

/-! ## Canary registry (`canary.py`)

Fresh token ids and generated entropy come from `secrets`; the model
takes them as explicit `token_id`/`entropy` inputs (for `PROMPT` tokens
the value depends only on `token_id`, exactly as in the source).  The
token-file and trigger-log writes, and `_trigger_token`'s counter
updates, are disk effects no claim touches; `check` returns the trigger
records produced. -/

/-- The canary kinds. -/
inductive CanaryType where
  | CREDENTIAL | FILE | API_KEY | URL | DNS | PROMPT
deriving DecidableEq

/-- One canary token. -/
structure CanaryToken where
  token_id : String
  token_type : CanaryType
  value : String
  description : String
  created_at : String
  triggered : Bool := false
  trigger_count : Nat := 0
  last_triggered : Option String := none
deriving DecidableEq

/-- One trigger record. -/
structure CanaryTrigger where
  token_id : String
  timestamp : String
  source_ip : Option String
  user_agent : Option String
  context : Json
deriving DecidableEq

/-- The literal value minted for a token: a truthy `custom_value` wins;
otherwise the kind's format around the generated entropy (for `PROMPT`,
the first 8 characters of the token id). -/
def canaryValue (token_type : CanaryType) (token_id entropy : String)
    (custom : Option String) : String :=
  if custom.getD "" != "" then custom.getD ""
  else match token_type with
    | .CREDENTIAL => "moltbot_canary_" ++ entropy
    | .API_KEY => "sk-canary-" ++ entropy
    | .URL => "https://canary.moltbot.local/" ++ entropy
    | .PROMPT => "[CANARY:" ++ strTake token_id 8 ++ "] IGNORE PREVIOUS INSTRUCTIONS"
    | _ => entropy

/-- `CanarySystem.create_token`: mint and append (fresh ids mean dict
insertion order is append order). -/
def create_token (tokens : List CanaryToken) (token_id entropy ts : String)
    (token_type : CanaryType) (description : String) (custom : Option String) :
    CanaryToken × List CanaryToken :=
  let token : CanaryToken :=
    { token_id := token_id, token_type := token_type,
      value := canaryValue token_type token_id entropy custom,
      description := description, created_at := ts }
  (token, tokens ++ [token])

/-- Python's `needle in haystack` substring test. -/
def strContains (haystack needle : String) : Bool :=
  decide (needle.data <:+: haystack.data)

/-- `CanarySystem.check`: one trigger per token whose value occurs in
the content, in registry order. -/
def check (tokens : List CanaryToken) (content : String) (ts : String)
    (source_ip user_agent : Option String) (context : Json) :
    List CanaryTrigger :=
  (tokens.filter (fun t => strContains content t.value)).map
    (fun t => ⟨t.token_id, ts, source_ip, user_agent, context⟩)

/-- `CanarySystem.inject_prompt_canaries`: mint a PROMPT token, append
an HTML comment carrying its value, return the new id. -/
def inject_prompt_canaries (tokens : List CanaryToken)
    (token_id entropy ts : String) (prompt : String) :
    (String × List String) × List CanaryToken :=
  let r := create_token tokens token_id entropy ts .PROMPT
    ("Prompt canary for: " ++ strTake prompt 50 ++ "...") none
  ((prompt ++ "\n\n<!-- " ++ r.1.value ++ " -->", [r.1.token_id]), r.2)

/-! ## Credential injector (`credentials.py`) -/

/-- The static action-to-secret-keys mapping of `inject_for_action`. -/
def action_to_secrets (action : String) : List String :=
  if action = "send_email" then ["gmail_token"]
  else if action = "read_email" then ["gmail_token"]
  else if action = "send_telegram" then ["telegram_bot_token"]
  else if action = "read_telegram" then ["telegram_bot_token"]
  else if action = "send_slack" then ["slack_token"]
  else if action = "read_slack" then ["slack_token"]
  else if action = "make_call" then ["twilio_account_sid", "twilio_auth_token"]
  else if action = "send_sms" then ["twilio_account_sid", "twilio_auth_token"]
  else []

/-- The executor's environment: outcomes of its external effects.
`secrets` is the result of `_load_secrets("api-keys.yaml")` (the
decrypted map, or the exception message it raises); `integration` is the
outcome of the external integration invoked for an action; `ts` is
`datetime.now(timezone.utc).isoformat()`, `ts_compact` is
`datetime.now().strftime("%Y%m%d%H%M%S")`, `now` is `time.time()`. -/
structure Env where
  secrets : Except String (String → Option String)
  integration : String → Json → Except String Json
  ts : String
  ts_compact : String
  now : Rat

/-- `CredentialInjector.inject_for_action`: no required keys means no
decryption; otherwise each required key with `.get(key, "")`. -/
def inject_for_action (env : Env) (action : String) :
    Except String (List (String × String)) :=
  let required_keys := action_to_secrets action
  if required_keys.isEmpty then .ok []
  else
    match env.secrets with
    | .error e => .error e
    | .ok secrets => .ok (required_keys.map (fun k => (k, (secrets k).getD "")))

/-! ## Request server / executor (`executor.py`)

`ZoneExecutor.start` is the state after `__init__` and `start()`:
running, fresh collaborators, no pending approvals — and, crucially, no
`handlers` table, because the source only assigns `self.handlers` inside
`_on_kill`.  The `handle_approval_response` handler (which nests a full
execute response inside its reply) is exercised by no claim and is left
out of the dispatch model (`dispatch` returns `none` for it). -/

/-- One stored pending approval. -/
structure PendingApproval where
  action : String
  params : Json
  request_id : String
  created_at : String
deriving DecidableEq

/-- Dict lookup in the pending-approvals dict. -/
def lookupPA (l : List (String × PendingApproval)) (k : String) :
    Option PendingApproval :=
  (l.find? (fun p => p.1 == k)).map (fun p => p.2)

/-- Dict store (overwrite in place, else append at the end). -/
def setPA : List (String × PendingApproval) → String → PendingApproval →
    List (String × PendingApproval)
  | [], k, v => [(k, v)]
  | p :: t, k, v => if p.1 == k then (k, v) :: t else p :: setPA t k v

/-- Dict `del`. -/
def erasePA (l : List (String × PendingApproval)) (k : String) :
    List (String × PendingApproval) :=
  l.filter (fun p => !(p.1 == k))

/-- `KillSwitch.get_status`'s dict. -/
structure KillStatus where
  active : Bool
  killed : Bool
  kill_event : Option KillEvent
deriving DecidableEq

/-- One row of the `list_actions` reply. -/
structure ActionInfo where
  requires_approval : String
  rate_limit : String
  description : String
deriving DecidableEq

/-- An inbound request (absent JSON fields are `none`). -/
structure Message where
  type : String
  action : Option String := none
  params : Option Json := none
  request_id : Option String := none
  approval_id : Option String := none
  reason : Option String := none
  details : Option String := none
  triggered_by : Option String := none
  source : Option String := none
  content : Option Json := none
deriving DecidableEq

/-- An outbound response dict (absent keys are `none`). -/
structure Response where
  type : String
  status : Option String := none
  message : Option String := none
  error : Option String := none
  approval_id : Option String := none
  request_id : Option String := none
  action : Option String := none
  result : Option Json := none
  timestamp : Option String := none
  reason : Option String := none
  server : Option String := none
  version : Option String := none
  source : Option String := none
  running : Option Bool := none
  kill_switch : Option KillStatus := none
  pending_approvals : Option Nat := none
  actions : Option (List (String × ActionInfo)) := none
deriving DecidableEq

/-- The executor's process state. -/
structure ZoneExecutor where
  running : Bool
  policy : PolicyEngine
  kill_switch : KillSwitch
  anomaly_detector : AnomalyDetector
  pending_approvals : List (String × PendingApproval)
  handlers_installed : Bool

/-- State after `__init__` and `start()`. -/
def ZoneExecutor.start : ZoneExecutor :=
  ⟨true, PolicyEngine.start, KillSwitch.start, AnomalyDetector.start, [], false⟩

/-- The side effects of `KillSwitch._execute_shutdown` on the executor:
`_on_kill` assigns the handler table; the registered shutdown callback
`self.stop` clears the running flag and stops the switch. -/
def applyKillCallbacks (st : ZoneExecutor) : ZoneExecutor :=
  { st with handlers_installed := true, running := false,
            kill_switch := { st.kill_switch with active := false } }

/-- A kill-switch trigger as seen from the executor: switch transition
plus callback effects when the trigger was not the idempotent return. -/
def ZoneExecutor.triggerKill (st : ZoneExecutor) (reason : KillReason)
    (details triggered_by ts : String) : KillEvent × ZoneExecutor :=
  let fired := !(st.kill_switch.killed && st.kill_switch.kill_event.isSome)
  let tr := st.kill_switch.trigger reason details triggered_by ts
  let st' := { st with kill_switch := tr.2 }
  (tr.1, if fired then applyKillCallbacks st' else st')

/-- `anomaly_detector.record_action` as seen from the executor: on a
fresh trigger the shutdown callbacks run. -/
def execRecordAction (st : ZoneExecutor) (action : String) (env : Env) :
    Bool × ZoneExecutor :=
  let fired := !(st.kill_switch.killed && st.kill_switch.kill_event.isSome)
  let r := record_action st.anomaly_detector st.kill_switch action env.now env.ts
  let st' := { st with anomaly_detector := r.2.1, kill_switch := r.2.2 }
  (r.1, if !r.1 && fired then applyKillCallbacks st' else st')

/-- The actions `_execute_action` routes to an integration. -/
def integrationActions : List String :=
  ["read_email", "send_email", "read_telegram", "send_telegram",
   "read_slack", "send_slack", "make_call", "send_sms"]

/-- `ZoneExecutor._execute_action`: kill-state guard, anomaly guard,
then the integration call (raised exceptions become `.error`); unknown
actions return the `executed` dict. -/
def execute_action (st : ZoneExecutor) (env : Env) (action : String)
    (params : Json) : Except String Json × ZoneExecutor :=
  if st.kill_switch.killed then
    (.error "System is in killed state - all actions blocked", st)
  else
    let r := execRecordAction st action env
    if !r.1 then (.error "Action blocked by anomaly detector", r.2)
    else if integrationActions.contains action then
      (env.integration action params, r.2)
    else
      (.ok (Json.obj [("executed", .bool true), ("action", .str action),
        ("timestamp", .str env.ts)]), r.2)

/-- Python truthiness of an optional string field. -/
def truthy : Option String → Bool
  | none => false
  | some s => s != ""

/-- `approval_id and approval_id not in self.pending_approvals`. -/
def approvalInvalid (aid : Option String)
    (pending : List (String × PendingApproval)) : Bool :=
  truthy aid && (lookupPA pending (aid.getD "")).isNone

/-- `ZoneExecutor.handle_capability_execute`. -/
def handle_capability_execute (st : ZoneExecutor) (env : Env) (m : Message) :
    Response × ZoneExecutor :=
  let action := m.action.getD ""
  let params := m.params.getD (Json.obj [])
  let approval_id := m.approval_id
  if approvalInvalid approval_id st.pending_approvals then
    ({ type := "execute_response", status := some "error",
       message := some "Invalid or expired approval ID" }, st)
  else
    match inject_for_action env action with
    | .error e =>
        ({ type := "execute_response", status := some "error",
           action := some action, message := some e }, st)
    | .ok _creds =>
        match execute_action st env action params with
        | (.error e, st') =>
            ({ type := "execute_response", status := some "error",
               action := some action, message := some e }, st')
        | (.ok result, st') =>
            let st'' :=
              if truthy approval_id then
                { st' with pending_approvals :=
                    erasePA st'.pending_approvals (approval_id.getD "") }
              else st'
            ({ type := "execute_response", status := some "success",
               action := some action, result := some result }, st'')

/-- `ZoneExecutor.handle_capability_request`. -/
def handle_capability_request (st : ZoneExecutor) (env : Env) (m : Message) :
    Response × ZoneExecutor :=
  let action := m.action.getD ""
  let params := m.params.getD (Json.obj [])
  let request_id := m.request_id.getD ""
  let pr := check_action st.policy action params
  let st1 := { st with policy := pr.2 }
  if !pr.1.allowed then
    ({ type := "capability_response", request_id := some request_id,
       status := some "denied", error := pr.1.error,
       message := pr.1.message }, st1)
  else if pr.1.requires_approval then
    let approval_id := "approval_" ++ env.ts_compact ++ "_" ++ action
    let pending : PendingApproval := ⟨action, params, request_id, env.ts⟩
    ({ type := "capability_response", request_id := some request_id,
       status := some "pending_approval", approval_id := some approval_id,
       message := some ("Action " ++ sq ++ action ++ sq
         ++ " requires approval") },
     { st1 with pending_approvals := setPA st1.pending_approvals approval_id pending })
  else
    ({ type := "capability_response", request_id := some request_id,
       status := some "approved",
       message := some ("Action " ++ sq ++ action ++ sq
         ++ " is allowed without approval") }, st1)

/-- `ZoneExecutor.handle_ping`. -/
def handle_ping (env : Env) : Response :=
  { type := "pong", timestamp := some env.ts,
    server := some "zone1-executor", version := some "1.0.0" }

/-- `ZoneExecutor.handle_kill`: the reason string maps to `MANUAL` only
for `"manual"`, anything else to `SECURITY_BREACH`. -/
def handle_kill (st : ZoneExecutor) (env : Env) (m : Message) :
    Response × ZoneExecutor :=
  let reason := m.reason.getD "manual"
  let details := m.details.getD "Kill command received"
  let triggered_by := m.triggered_by.getD "remote"
  let tr := st.triggerKill
    (if reason = "manual" then KillReason.MANUAL else KillReason.SECURITY_BREACH)
    details triggered_by env.ts
  ({ type := "kill_response", status := some "killed",
     timestamp := some tr.1.timestamp,
     reason := some tr.1.reason.value }, tr.2)

/-- `ZoneExecutor.handle_status`. -/
def handle_status (st : ZoneExecutor) (env : Env) : Response :=
  { type := "status_response", running := some st.running,
    kill_switch := some ⟨st.kill_switch.active, st.kill_switch.killed,
      st.kill_switch.kill_event⟩,
    pending_approvals := some st.pending_approvals.length,
    timestamp := some env.ts }

/-- `ZoneExecutor.handle_list_actions`. -/
def handle_list_actions : Response :=
  { type := "actions_list",
    actions := some (ALLOWED_ACTIONS.map (fun p =>
      (p.1, ⟨p.2.requires_approval.value, p.2.rate_limit, p.2.description⟩))) }

/-- `ZoneExecutor.handle_content_sanitized`. -/
def handle_content_sanitized (env : Env) (m : Message) : Response :=
  { type := "content_received", source := some (m.source.getD ""),
    status := some "acknowledged", timestamp := some env.ts }

/-- `ZoneExecutor._handle_unknown`. -/
def handle_unknown (m : Message) : Response :=
  { type := "error", message := some ("Unknown message type: " ++ m.type) }

/-- The `str(e)` of the `AttributeError` raised when `self.handlers` has
never been assigned. -/
def attrErrMsg : String :=
  sq ++ "ZoneExecutor" ++ sq ++ " object has no attribute " ++ sq
    ++ "handlers" ++ sq

/-- `_handle_connection`'s dispatch: reading `self.handlers` before
`_on_kill` ever ran raises `AttributeError`, which the handler's
`except` turns into an error reply; otherwise the table maps the type
field to its handler (`none` for the unmodelled `approval_response`). -/
def dispatch (st : ZoneExecutor) (env : Env) (m : Message) :
    Option (Response × ZoneExecutor) :=
  if st.handlers_installed then
    match m.type with
    | "ping" => some (handle_ping env, st)
    | "capability_request" => some (handle_capability_request st env m)
    | "capability_execute" => some (handle_capability_execute st env m)
    | "content_sanitized" => some (handle_content_sanitized env m, st)
    | "approval_response" => none
    | "list_actions" => some (handle_list_actions, st)
    | "kill" => some (handle_kill st env m)
    | "status" => some (handle_status st env, st)
    | _ => some (handle_unknown m, st)
  else
    some ({ type := "error", message := some attrErrMsg }, st)

/-! ## Concrete fixtures used by witnesses and counterexamples -/

/-- A benign environment: decryption succeeds, integrations succeed. -/
def envOk : Env :=
  ⟨.ok (fun _ => some "secret"),
   fun _ _ => .ok (Json.obj [("ok", .bool true)]),
   "2024-01-01T00:00:00+00:00", "20240101000000", 1000⟩

/-- The executor state right after a manual kill. -/
def stKilled : ZoneExecutor :=
  (ZoneExecutor.start.triggerKill .MANUAL "test" "remote"
    "2024-01-01T00:00:00+00:00").2

/-- A `capability_execute` for `read_email` with no approval id. -/
def msgExecRead : Message := { type := "capability_execute", action := some "read_email" }

/-- A `capability_execute` for `send_email` with no approval id. -/
def msgExecSend : Message := { type := "capability_execute", action := some "send_email" }

/-- A `capability_execute` with an unknown approval id. -/
def msgExecFake : Message :=
  { type := "capability_execute", action := some "send_email",
    approval_id := some "fake_approval_id" }

/-- A `capability_execute` with an empty-string approval id. -/
def msgExecEmpty : Message :=
  { type := "capability_execute", action := some "send_email",
    approval_id := some "" }

/-- Two audit appends, as in the red-team audit test. -/
def c2rs : List LogRequest :=
  [{ timestamp := "2024-01-01T00:00:00+00:00", event_type := .system_start,
     actor := "test" },
   { timestamp := "2024-01-01T00:00:01+00:00", event_type := .action_executed,
     action := some "test_action", actor := "test" }]

/-- The lines of the day file after a run of appends on a fresh logger. -/
def runLines (rs : List LogRequest) : List AuditEvent :=
  (AuditLogger.start.logMany rs).lines

/-- Python's `s.lower()` (ASCII case fold, all the strings here are
ASCII). -/
def strLower (s : String) : String := ⟨s.data.map Char.toLower⟩

/-- `"killed" in (message or "").lower()`: the containment the spec
demands of refusals after a kill. -/
def messageContainsKilled : Option String → Bool
  | none => false
  | some s => strContains (strLower s) "killed"

/-- `j` successive `check_action` calls for one action (the `params`
argument is ignored by `check_action`). -/
def checkN : Nat → PolicyEngine → String → PolicyEngine
  | 0, pe, _ => pe
  | j + 1, pe, a => checkN j (check_action pe a (Json.obj [])).2 a

/-- Two distinct `capability_request` messages arriving in the same
wall-clock second. -/
def msgReq1 : Message :=
  { type := "capability_request", action := some "send_email",
    request_id := some "r1" }

/-- The second of the two requests. -/
def msgReq2 : Message :=
  { type := "capability_request", action := some "send_email",
    request_id := some "r2" }

instance : Inhabited LogRequest :=
  ⟨{ timestamp := "", event_type := .system_start }⟩

/-- The first event of the `c2rs` run. -/
def c2e0 : AuditEvent := (AuditLogger.start.log (c2rs.headD default)).1

/-! ## Sanity checks of the embedding against reference outputs -/

example :
    sha256 "" =
      "e3b0c44298fc1c149afbf4c8996fb92427ae41e4649b934ca495991b7852b855" := by
  decide

example :
    sha256 "abc" =
      "ba7816bf8f01cfea414140de5dae2223b00361a396177a9cb410ff61f20015ad" := by
  decide

example :
    dumps (.obj [("b", .num 1), ("a", .null)]) =
      "\x7b\"a\": null, \"b\": 1\x7d" := by
  decide

set_option maxRecDepth 8000 in
example :
    compute_hash
        (eventDataJson "T" "system_start" none "test" "zone1" (.obj []) none)
        "GENESIS" =
      "e0b81f28f7dfc470305d7584d11182a0faac204269140f8cb34db1b44cbc0ad5" := by
  decide

example :
    (handle_capability_execute ZoneExecutor.start envOk msgExecRead).1.status =
      some "success" := by decide

example :
    (handle_capability_execute stKilled envOk msgExecRead).1.message =
      some "System is in killed state - all actions blocked" := by decide

example :
    (handle_capability_execute ZoneExecutor.start envOk msgExecFake).1.message =
      some "Invalid or expired approval ID" := by decide

example :
    (handle_capability_request ZoneExecutor.start envOk
      { type := "capability_request", action := some "send_email",
        request_id := some "t3" }).1.approval_id =
      some "approval_20240101000000_send_email" := by decide

example :
    (handle_kill ZoneExecutor.start envOk
      { type := "kill", reason := some "foo" }).1.reason =
      some "security_breach" := by decide

example :
    (dispatch ZoneExecutor.start envOk { type := "ping" }).map
      (fun r => r.1.type) = some "error" := by decide

example :
    (dispatch stKilled envOk { type := "ping" }).map
      (fun r => r.1.type) = some "pong" := by decide

/-! ### The audit chain invariant and its preservation -/

/-- The chain predicate: starting from `prev`, every event links to its
predecessor and its stored hash is the recomputation from its fields. -/
def wellChained : String → List AuditEvent → Prop
  | _, [] => True
  | prev, e :: rest =>
      e.previous_hash = prev ∧
      e.event_hash = compute_hash (eventDataOf e) e.previous_hash ∧
      wellChained e.event_hash rest

/-- The tail hash after a list of events. -/
def tailHash (prev : String) : List AuditEvent → String
  | [] => prev
  | e :: rest => tailHash e.event_hash rest

lemma tailHash_append (prev : String) (l : List AuditEvent) (e : AuditEvent) :
    tailHash prev (l ++ [e]) = e.event_hash := by
  induction l generalizing prev with
  | nil => rfl
  | cons f rest ih => simpa [tailHash] using ih f.event_hash

lemma wellChained_append :
    ∀ (l : List AuditEvent) (prev : String) (e : AuditEvent),
      wellChained prev l → e.previous_hash = tailHash prev l →
      e.event_hash = compute_hash (eventDataOf e) e.previous_hash →
      wellChained prev (l ++ [e]) := by
  intro l
  induction l with
  | nil => exact fun prev e _ hp hh => ⟨hp, hh, trivial⟩
  | cons f rest ih =>
      intro prev e h hp hh
      obtain ⟨h1, h2, h3⟩ := h
      exact ⟨h1, h2, ih _ _ h3 hp hh⟩

/-- The logger invariant: the day file is well chained from `GENESIS` and
the persisted tail hash is the chain's tail. -/
def LoggerInv (lg : AuditLogger) : Prop :=
  wellChained "GENESIS" lg.lines ∧
  lg.previous_hash = tailHash "GENESIS" lg.lines

lemma loggerInv_start : LoggerInv AuditLogger.start := ⟨trivial, rfl⟩

lemma log_lines (lg : AuditLogger) (r : LogRequest) :
    (lg.log r).2.lines = lg.lines ++ [(lg.log r).1] := rfl

lemma log_prev_out (lg : AuditLogger) (r : LogRequest) :
    (lg.log r).2.previous_hash = (lg.log r).1.event_hash := rfl

lemma log_event_prev (lg : AuditLogger) (r : LogRequest) :
    (lg.log r).1.previous_hash = lg.previous_hash := rfl

lemma log_event_hash (lg : AuditLogger) (r : LogRequest) :
    (lg.log r).1.event_hash =
      compute_hash (eventDataOf (lg.log r).1) (lg.log r).1.previous_hash := by
  simp only [AuditLogger.log, eventDataOf]

lemma loggerInv_log (lg : AuditLogger) (r : LogRequest) :
    LoggerInv lg → LoggerInv (lg.log r).2 := by
  rintro ⟨h1, h2⟩
  constructor
  · rw [log_lines]
    exact wellChained_append _ _ _ h1 (by rw [log_event_prev, h2])
      (log_event_hash lg r)
  · rw [log_lines, tailHash_append, log_prev_out]

lemma loggerInv_logMany (rs : List LogRequest) :
    ∀ lg : AuditLogger, LoggerInv lg → LoggerInv (lg.logMany rs) := by
  induction rs with
  | nil => exact fun lg h => h
  | cons r rest ih =>
      intro lg h
      simp only [AuditLogger.logMany]
      exact ih _ (loggerInv_log lg r h)

lemma wellChained_hash :
    ∀ (l : List AuditEvent) (prev : String), wellChained prev l →
      ∀ (i : Nat) (e : AuditEvent), l[i]? = some e →
        e.event_hash = compute_hash (eventDataOf e) e.previous_hash := by
  intro l
  induction l with
  | nil => simp
  | cons f rest ih =>
      rintro prev ⟨_, h2, h3⟩ i e he
      match i with
      | 0 =>
          obtain rfl : f = e := by simpa using he
          exact h2
      | i + 1 => exact ih _ h3 i e (by simpa using he)

lemma wellChained_zero :
    ∀ (l : List AuditEvent) (prev : String), wellChained prev l →
      ∀ e : AuditEvent, l[0]? = some e → e.previous_hash = prev := by
  rintro (_ | ⟨f, rest⟩) prev h e he
  · simp at he
  · obtain rfl : f = e := by simpa using he
    exact h.1

lemma wellChained_succ :
    ∀ (l : List AuditEvent) (prev : String), wellChained prev l →
      ∀ (i : Nat) (e f : AuditEvent), l[i]? = some e → l[i + 1]? = some f →
        f.previous_hash = e.event_hash := by
  intro l
  induction l with
  | nil => simp
  | cons g rest ih =>
      rintro prev ⟨_, _, h3⟩ i e f he hf
      match i with
      | 0 =>
          obtain rfl : g = e := by simpa using he
          exact wellChained_zero rest _ h3 f (by simpa using hf)
      | i + 1 => exact ih _ h3 i e f (by simpa using he) (by simpa using hf)

lemma verifyLines_nil_of_wellChained (fname : String) :
    ∀ (l : List AuditEvent) (n : Nat) (prev : String),
      wellChained prev l → verifyLines fname n prev l = [] := by
  intro l
  induction l with
  | nil => intro n prev _; rfl
  | cons e rest ih =>
      rintro n prev ⟨h1, h2, h3⟩
      simp only [verifyLines]
      rw [if_neg (by simp [h1]), if_neg (by simp [h2]), ih _ _ h3]
      simp

lemma verifyLines_set (fname : String) (d' : Json) :
    ∀ (l : List AuditEvent) (n : Nat) (prev : String) (i : Nat)
      (e : AuditEvent),
      l[i]? = some e → wellChained prev l →
      compute_hash (eventDataOf { e with details := d' }) e.previous_hash ≠
        e.event_hash →
      verifyLines fname n prev (l.set i { e with details := d' }) =
        [mismatchErr fname (n + i)] := by
  intro l
  induction l with
  | nil => simp
  | cons f rest ih =>
      rintro n prev i e he ⟨h1, h2, h3⟩ hne
      match i with
      | 0 =>
          obtain rfl : f = e := by simpa using he
          simp only [List.set_cons_zero, verifyLines]
          rw [if_neg (by simp [h1]), if_pos (by simpa using hne),
              verifyLines_nil_of_wellChained fname rest _ _ (by simpa using h3)]
          simp
      | i + 1 =>
          simp only [List.set_cons_succ, verifyLines]
          rw [if_neg (by simp [h1]), if_neg (by simp [h2]),
              ih (n + 1) _ i e (by simpa using he) h3 hne]
          have harith : n + 1 + i = n + (i + 1) := by omega
          simp [harith]

/-! ## Claims -/

/-- C2: for every sequence of K appended audit events (K ≥ 0), each
stored `event_hash` is SHA-256 of the canonical sorted-key JSON of the
non-hash fields concatenated with its `previous_hash`; the first event's
`previous_hash` is `"GENESIS"`; each later event's `previous_hash` is
the preceding event's `event_hash`; `verify_chain` over the unmodified
log returns `(valid := true, errors := [])`; and mutating one event's
`details` on disk without rehashing (so that the recomputed hash
differs, which SHA-256 collision-freedom gives for any actual change)
makes `verify_chain` return `false` with exactly the error naming the
file and the 1-based line number. -/
theorem audit_chain_C2 (rs : List LogRequest) (fname : String) :
    (∀ (i : Nat) (e : AuditEvent), (runLines rs)[i]? = some e →
       e.event_hash = sha256 (dumpsObj (eventDataOf e) ++ e.previous_hash)) ∧
    (∀ e : AuditEvent, (runLines rs)[0]? = some e →
       e.previous_hash = "GENESIS") ∧
    (∀ (i : Nat) (e f : AuditEvent), (runLines rs)[i]? = some e →
       (runLines rs)[i + 1]? = some f → f.previous_hash = e.event_hash) ∧
    verify_chain fname (runLines rs) = (true, []) ∧
    (∀ (i : Nat) (e : AuditEvent) (d' : Json), (runLines rs)[i]? = some e →
       compute_hash (eventDataOf { e with details := d' }) e.previous_hash ≠
         e.event_hash →
       verify_chain fname ((runLines rs).set i { e with details := d' }) =
         (false, [mismatchErr fname (1 + i)])) := by
  have hinv := loggerInv_logMany rs AuditLogger.start loggerInv_start
  have hwc : wellChained "GENESIS" (runLines rs) := hinv.1
  refine ⟨?_, ?_, ?_, ?_, ?_⟩
  · intro i e he
    simpa [compute_hash] using wellChained_hash _ _ hwc i e he
  · intro e he
    exact wellChained_zero _ _ hwc e he
  · intro i e f he hf
    exact wellChained_succ _ _ hwc i e f he hf
  · have hnil := verifyLines_nil_of_wellChained fname (runLines rs) 1 "GENESIS" hwc
    simp [verify_chain, hnil]
  · intro i e d' he hne
    have hv := verifyLines_set fname d' (runLines rs) 1 "GENESIS" i e he hwc hne
    simp [verify_chain, hv]

set_option maxRecDepth 10000 in
/-- Witness for C2 at the two-event run `c2rs`: the untampered chain
verifies clean, and replacing the first event's `details` yields exactly
the hash-mismatch error at line 1. -/
theorem audit_chain_C2_witness :
    verify_chain "audit-2024-01-01.jsonl" (runLines c2rs) = (true, []) ∧
    verify_chain "audit-2024-01-01.jsonl"
        ((runLines c2rs).set 0
          { c2e0 with details := Json.obj [("tampered", JVal.bool true)] }) =
      (false, [mismatchErr "audit-2024-01-01.jsonl" 1]) := by
  constructor
  · exact (audit_chain_C2 c2rs "audit-2024-01-01.jsonl").2.2.2.1
  · have h := (audit_chain_C2 c2rs "audit-2024-01-01.jsonl").2.2.2.2 0 c2e0
      (Json.obj [("tampered", JVal.bool true)]) (by decide) (by decide)
    simpa using h

/-- C6: the handler table is only assigned inside `_on_kill`, so before
the first kill a `ping` (indeed any request) is answered by the generic
exception path with the `AttributeError` text instead of its handler's
reply; after a kill the table exists and maps `ping` to the pong reply
and unknown types to the unknown-type error.  This contradicts the
claim (and matches the bug the spec itself flags): dispatch does not
work from construction onward. -/
theorem dispatch_handlers_C6 :
    ZoneExecutor.start.handlers_installed = false ∧
    (dispatch ZoneExecutor.start envOk { type := "ping" }).map (fun r => r.1) =
      some { type := "error", message := some attrErrMsg } ∧
    (dispatch ZoneExecutor.start envOk { type := "ping" }).map
      (fun r => r.1.type) ≠ some "pong" ∧
    stKilled.handlers_installed = true ∧
    (dispatch stKilled envOk { type := "ping" }).map (fun r => r.1) =
      some (handle_ping envOk) ∧
    (dispatch stKilled envOk { type := "weird" }).map (fun r => r.1) =
      some { type := "error",
             message := some "Unknown message type: weird" } := by
  decide

/-- C5: evaluating `handle_capability_execute` on each path (success,
kill refusal, invalid approval) — the executor's state, which models
every attribute `ZoneExecutor.__init__` creates, carries no audit log at
all and the handler never constructs one, so no path appends an audit
event, against the claim that every path does. -/
theorem no_audit_on_execute_C5 :
    (handle_capability_execute ZoneExecutor.start envOk msgExecRead).1.status =
      some "success" ∧
    (handle_capability_execute stKilled envOk msgExecRead).1.status =
      some "error" ∧
    (handle_capability_execute ZoneExecutor.start envOk msgExecFake).1.status =
      some "error" := by
  decide

/-- C9 (amended): `handle_kill` maps the reason string `"manual"` (and
an absent reason field, which defaults to `"manual"`) to `MANUAL`, and
every other reason string to `SECURITY_BREACH` — not to `MANUAL` as the
claim says. -/
theorem handle_kill_C9 (st : ZoneExecutor) (env : Env) (m : Message)
    (hnotkilled : st.kill_switch.killed = false) :
    (handle_kill st env m).2.kill_switch.kill_event =
      some ⟨env.ts,
        (if m.reason.getD "manual" = "manual" then KillReason.MANUAL
         else KillReason.SECURITY_BREACH),
        m.details.getD "Kill command received",
        m.triggered_by.getD "remote"⟩ ∧
    (handle_kill st env m).2.kill_switch.killed = true ∧
    (handle_kill st env m).1.reason =
      some (if m.reason.getD "manual" = "manual" then KillReason.MANUAL
            else KillReason.SECURITY_BREACH).value := by
  cases hks : st.kill_switch.kill_event with
  | none =>
      refine ⟨?_, ?_, ?_⟩ <;>
        simp [handle_kill, ZoneExecutor.triggerKill, KillSwitch.trigger,
          applyKillCallbacks, hnotkilled, hks]
  | some e =>
      refine ⟨?_, ?_, ?_⟩ <;>
        simp [handle_kill, ZoneExecutor.triggerKill, KillSwitch.trigger,
          applyKillCallbacks, hnotkilled, hks]

/-- Witness for C9 at a fresh executor and the unrecognized reason
string `"oops"`. -/
theorem handle_kill_C9_witness :
    (handle_kill ZoneExecutor.start envOk
        { type := "kill", reason := some "oops" }).2.kill_switch.kill_event =
      some ⟨"2024-01-01T00:00:00+00:00", KillReason.SECURITY_BREACH,
        "Kill command received", "remote"⟩ ∧
    (handle_kill ZoneExecutor.start envOk
        { type := "kill", reason := some "oops" }).1.reason =
      some "security_breach" := by
  have h := handle_kill_C9 ZoneExecutor.start envOk
    { type := "kill", reason := some "oops" } (by decide)
  exact ⟨by simpa using h.1, by simpa using h.2.2⟩

/-- Counterexample to C9 as stated: for the unrecognized reason string
`"not_a_known_reason"`, the recorded kill event carries
`SECURITY_BREACH`, which is not `MANUAL`. -/
theorem handle_kill_C9_counterexample :
    ((handle_kill ZoneExecutor.start envOk
        { type := "kill", reason := some "not_a_known_reason" }
      ).2.kill_switch.kill_event).map (fun e => e.reason) =
      some KillReason.SECURITY_BREACH ∧
    KillReason.SECURITY_BREACH ≠ KillReason.MANUAL := by
  decide

/-- C10: for every prompt, `inject_prompt_canaries` returns the new
PROMPT-kind token's id, the registry gains that token, and `check` of
the returned string reports a trigger carrying the returned id. -/
theorem inject_canary_C10 (tokens : List CanaryToken)
    (token_id entropy ts ts2 prompt : String) (sip ua : Option String)
    (ctx : Json) :
    (inject_prompt_canaries tokens token_id entropy ts prompt).1.2 =
      [token_id] ∧
    (∃ tok ∈ (inject_prompt_canaries tokens token_id entropy ts prompt).2,
      tok.token_id = token_id ∧ tok.token_type = CanaryType.PROMPT) ∧
    (∃ trig ∈ check (inject_prompt_canaries tokens token_id entropy ts prompt).2
        (inject_prompt_canaries tokens token_id entropy ts prompt).1.1
        ts2 sip ua ctx,
      trig.token_id = token_id) := by
  refine ⟨rfl, ?_, ?_⟩
  · exact ⟨_, List.mem_append_right tokens (List.mem_singleton.mpr rfl),
      rfl, rfl⟩
  · have hinfix :
        (canaryValue .PROMPT token_id entropy none).data <:+:
          (prompt ++ "\n\n<!-- " ++ canaryValue .PROMPT token_id entropy none
            ++ " -->").data := by
      refine ⟨(prompt ++ "\n\n<!-- ").data, " -->".data, ?_⟩
      simp [String.data_append]
    have hmem : (create_token tokens token_id entropy ts .PROMPT
        ("Prompt canary for: " ++ strTake prompt 50 ++ "...") none).1 ∈
          (inject_prompt_canaries tokens token_id entropy ts prompt).2 :=
      List.mem_append_right tokens (List.mem_singleton.mpr rfl)
    refine ⟨⟨token_id, ts2, sip, ua, ctx⟩, ?_, rfl⟩
    simp only [check]
    exact List.mem_map.mpr
      ⟨_, List.mem_filter.mpr ⟨hmem, decide_eq_true hinfix⟩, rfl⟩

/-- C1 (amended): after the kill switch has fired, every
`capability_execute` whose supplied approval id (if any) passes the
handler's approval gate and whose credential decryption succeeds is
refused with `status = "error"` and the message
`"System is in killed state - all actions blocked"`, which contains
`killed` case-insensitively; the state is unchanged.  (A request
carrying an unknown non-empty approval id, or one whose credential
decryption raises, is still refused with `status = "error"` but with a
message that does not contain `killed` — see the counterexample.) -/
theorem killed_execute_C1 (st : ZoneExecutor) (env : Env) (m : Message)
    (creds : List (String × String))
    (hkilled : st.kill_switch.killed = true)
    (happroval : approvalInvalid m.approval_id st.pending_approvals = false)
    (hcreds : inject_for_action env (m.action.getD "") = .ok creds) :
    (handle_capability_execute st env m).1.status = some "error" ∧
    (handle_capability_execute st env m).1.message =
      some "System is in killed state - all actions blocked" ∧
    messageContainsKilled (handle_capability_execute st env m).1.message =
      true ∧
    (handle_capability_execute st env m).2 = st := by
  have hresp : handle_capability_execute st env m =
      ({ type := "execute_response", status := some "error",
         action := some (m.action.getD ""),
         message := some "System is in killed state - all actions blocked" },
       st) := by
    simp [handle_capability_execute, execute_action, happroval, hcreds, hkilled]
  rw [hresp]
  refine ⟨rfl, rfl, ?_, rfl⟩
  show messageContainsKilled
    (some "System is in killed state - all actions blocked") = true
  decide

/-- Witness for C1: a killed executor refusing a `read_email` execute
with the killed-state message. -/
theorem killed_execute_C1_witness :
    (handle_capability_execute stKilled envOk msgExecRead).1.status =
      some "error" ∧
    messageContainsKilled
      (handle_capability_execute stKilled envOk msgExecRead).1.message =
      true := by
  have h := killed_execute_C1 stKilled envOk msgExecRead
    [("gmail_token", "secret")] (by decide) (by decide) (by rfl)
  exact ⟨h.1, h.2.2.1⟩

/-- Counterexample to C1 as stated: after the kill, a
`capability_execute` carrying an unknown approval id is answered by the
approval gate first — `status = "error"` but the message is
`"Invalid or expired approval ID"`, which does not contain `killed`. -/
theorem killed_execute_C1_counterexample :
    stKilled.kill_switch.killed = true ∧
    (handle_capability_execute stKilled envOk msgExecFake).1.status =
      some "error" ∧
    (handle_capability_execute stKilled envOk msgExecFake).1.message =
      some "Invalid or expired approval ID" ∧
    messageContainsKilled
      (handle_capability_execute stKilled envOk msgExecFake).1.message =
      false := by
  decide

lemma approvalInvalid_iff (aid : Option String)
    (pending : List (String × PendingApproval)) :
    approvalInvalid aid pending = true ↔
      ∃ s, aid = some s ∧ s ≠ "" ∧ lookupPA pending s = none := by
  cases aid with
  | none => simp [approvalInvalid, truthy]
  | some s => simp [approvalInvalid, truthy, Option.isNone_iff_eq_none]

lemma lookupPA_setPA :
    ∀ (l : List (String × PendingApproval)) (k : String) (v : PendingApproval),
      lookupPA (setPA l k v) k = some v := by
  intro l k v
  induction l with
  | nil => simp [setPA, lookupPA, List.find?]
  | cons p t ih =>
      by_cases h : p.1 == k
      · simp [setPA, h, lookupPA, List.find?]
      · simp only [setPA, h, if_neg]
        simp only [lookupPA, List.find?, h] at ih ⊢
        simpa using ih

/-- C4 (amended): `handle_capability_execute` performs no approval check
when the `approval_id` field is omitted — any action, including
APPROVE-level ones like `send_email`, proceeds straight to credential
loading and execution, gated only by the kill switch and the anomaly
detector; the error `"Invalid or expired approval ID"` is returned
exactly when a NON-EMPTY approval id is supplied and absent from the
pending map (an empty string is falsy in Python and bypasses the check —
see the counterexample). -/
theorem approval_gate_C4 (st : ZoneExecutor) (env : Env) (m : Message) :
    ((handle_capability_execute st env m).1 =
        { type := "execute_response", status := some "error",
          message := some "Invalid or expired approval ID" } ↔
      ∃ s, m.approval_id = some s ∧ s ≠ "" ∧
        lookupPA st.pending_approvals s = none) ∧
    (∀ (creds : List (String × String)) (result : Json),
      m.approval_id = none →
      st.kill_switch.killed = false →
      inject_for_action env (m.action.getD "") = .ok creds →
      (execRecordAction st (m.action.getD "") env).1 = true →
      integrationActions.contains (m.action.getD "") = true →
      env.integration (m.action.getD "") (m.params.getD (Json.obj [])) =
        .ok result →
      (handle_capability_execute st env m).1 =
        { type := "execute_response", status := some "success",
          action := some (m.action.getD ""),
          result := some result }) := by
  constructor
  · rw [← approvalInvalid_iff]
    by_cases hinv : approvalInvalid m.approval_id st.pending_approvals = true
    · simp [handle_capability_execute, hinv]
    · have hinv' : approvalInvalid m.approval_id st.pending_approvals = false :=
        by simpa using hinv
      rcases hc : inject_for_action env (m.action.getD "") with e | creds
      · simp [handle_capability_execute, hinv', hc]
      · rcases hex : execute_action st env (m.action.getD "")
            (m.params.getD (Json.obj [])) with ⟨res, st2⟩
        cases res with
        | error e => simp [handle_capability_execute, hinv', hc, hex]
        | ok r => simp [handle_capability_execute, hinv', hc, hex]
  · intro creds result hnone hkill hcreds hrec hmem hint
    have hinv0 : approvalInvalid none st.pending_approvals = false := by
      simp [approvalInvalid, truthy]
    have hmem' : (m.action.getD "") ∈ integrationActions := by simpa using hmem
    simp [handle_capability_execute, hinv0, hcreds, execute_action, hkill,
      hrec, hmem', hint, hnone, truthy]

/-- Witness for C4: on a fresh executor, a `capability_execute` for the
APPROVE-level `send_email` with the `approval_id` field omitted runs to
success with no approval checked. -/
theorem approval_gate_C4_witness :
    (handle_capability_execute ZoneExecutor.start envOk msgExecSend).1 =
      { type := "execute_response", status := some "success",
        action := some "send_email",
        result := some (Json.obj [("ok", .bool true)]) } := by
  have h := (approval_gate_C4 ZoneExecutor.start envOk msgExecSend).2
    [("gmail_token", "secret")] (Json.obj [("ok", .bool true)])
    rfl (by decide) (by rfl) (by decide) (by decide) (by rfl)
  simpa using h

/-- Counterexample to C4's "exactly when" as stated: an empty-string
approval id IS supplied and IS absent from the pending map, yet the
handler does not return the invalid-approval error — it executes the
APPROVE-level action successfully (Python truthiness skips the check). -/
theorem approval_gate_C4_counterexample :
    msgExecEmpty.approval_id = some "" ∧
    lookupPA ZoneExecutor.start.pending_approvals "" = none ∧
    (handle_capability_execute ZoneExecutor.start envOk msgExecEmpty).1.status =
      some "success" ∧
    (handle_capability_execute ZoneExecutor.start envOk msgExecEmpty).1 ≠
      { type := "execute_response", status := some "error",
        message := some "Invalid or expired approval ID" } := by
  decide

/-- C3 (amended): for every APPROVE-level action whose rate counter is
below its cap, `capability_request` returns `"pending_approval"` with
the non-empty id `approval_<yyyymmddHHMMSS>_<action>` and stores the
pending approval under it; two allocated ids are equal exactly when
their second-resolution timestamps and actions agree (the `strftime`
timestamps all have length 14), so ids from calls in the same second for
the same action COLLIDE — uniqueness across a run, as claimed, fails
(see the counterexample). -/
theorem capability_request_approve_C3 (st : ZoneExecutor) (env : Env)
    (m : Message) (pol : ActionPolicy)
    (hlook : lookupAction (m.action.getD "") = some pol)
    (happrove : pol.requires_approval = ApprovalLevel.APPROVE)
    (hrate : st.policy.rate_counts (m.action.getD "") <
      rateCapCount pol.rate_limit) :
    (handle_capability_request st env m).1.status = some "pending_approval" ∧
    (handle_capability_request st env m).1.approval_id =
      some ("approval_" ++ env.ts_compact ++ "_" ++ m.action.getD "") ∧
    ("approval_" ++ env.ts_compact ++ "_" ++ m.action.getD "" : String) ≠ "" ∧
    lookupPA (handle_capability_request st env m).2.pending_approvals
        ("approval_" ++ env.ts_compact ++ "_" ++ m.action.getD "") =
      some ⟨m.action.getD "", m.params.getD (Json.obj []),
        m.request_id.getD "", env.ts⟩ ∧
    (∀ ts1 ts2 a1 a2 : String, ts1.length = ts2.length →
      (("approval_" ++ ts1 ++ "_" ++ a1 : String) =
          "approval_" ++ ts2 ++ "_" ++ a2 ↔ ts1 = ts2 ∧ a1 = a2)) := by
  have hrl : check_rate_limit st.policy (m.action.getD "") pol.rate_limit =
      (true, ⟨setCount st.policy.rate_counts (m.action.getD "")
        (st.policy.rate_counts (m.action.getD "") + 1)⟩) := by
    unfold check_rate_limit
    rw [if_neg (by omega)]
  refine ⟨?_, ?_, ?_, ?_, ?_⟩
  · simp [handle_capability_request, check_action, hlook, hrl, happrove]
  · simp [handle_capability_request, check_action, hlook, hrl, happrove]
  · intro heq
    have hlen := congrArg String.length heq
    have h9 : ("approval_" : String).length = 9 := by decide
    have h1 : ("_" : String).length = 1 := by decide
    have h0 : ("" : String).length = 0 := by decide
    simp [String.length_append, h9, h1, h0] at hlen
  · simp [handle_capability_request, check_action, hlook, hrl, happrove,
      lookupPA_setPA]
  · intro ts1 ts2 a1 a2 hlen
    constructor
    · intro h
      have hd : "approval_".data ++ (ts1.data ++ ("_".data ++ a1.data)) =
          "approval_".data ++ (ts2.data ++ ("_".data ++ a2.data)) := by
        have hdd := congrArg String.data h
        simp only [String.data_append, List.append_assoc] at hdd
        exact hdd
      have h1 := List.append_cancel_left hd
      have hlen' : ts1.data.length = ts2.data.length := hlen
      have h2 := List.append_inj h1 hlen'
      obtain ⟨hts, hrest⟩ := h2
      have ha : a1.data = a2.data := List.append_cancel_left hrest
      refine ⟨?_, ?_⟩
      · cases ts1; cases ts2; exact congrArg String.mk hts
      · cases a1; cases a2; exact congrArg String.mk ha
    · rintro ⟨rfl, rfl⟩
      rfl

/-- Witness for C3 at a fresh executor and the `send_email` request:
pending approval with the formatted id, and ids for distinct actions in
the same second differ. -/
theorem capability_request_C3_witness :
    (handle_capability_request ZoneExecutor.start envOk msgReq1).1.status =
      some "pending_approval" ∧
    (handle_capability_request ZoneExecutor.start envOk msgReq1).1.approval_id =
      some ("approval_" ++ "20240101000000" ++ "_" ++ "send_email") ∧
    ("approval_" ++ "20240101000000" ++ "_" ++ "send_email" : String) ≠
      "approval_" ++ "20240101000000" ++ "_" ++ "send_sms" := by
  have h := capability_request_approve_C3 ZoneExecutor.start envOk msgReq1
    ⟨.APPROVE, "10/hour", "Send email via Gmail API"⟩ (by decide) rfl
    (by decide)
  refine ⟨h.1, h.2.1, ?_⟩
  intro heq
  have hiff := h.2.2.2.2 "20240101000000" "20240101000000" "send_email"
    "send_sms" rfl
  exact absurd (hiff.mp heq).2 (by decide)

/-- Counterexample to C3's uniqueness as stated: two distinct
`capability_request` calls (`request_id` `"r1"` then `"r2"`) within the
same wall-clock second allocate the SAME approval id. -/
theorem capability_request_C3_counterexample :
    msgReq1 ≠ msgReq2 ∧
    (handle_capability_request ZoneExecutor.start envOk msgReq1).1.approval_id =
      some "approval_20240101000000_send_email" ∧
    (handle_capability_request
        (handle_capability_request ZoneExecutor.start envOk msgReq1).2
        envOk msgReq2).1.approval_id =
      some "approval_20240101000000_send_email" := by
  decide

lemma trigger_killed (ks : KillSwitch) (r : KillReason) (d tb ts : String) :
    (ks.trigger r d tb ts).2.killed = true := by
  rcases ks with ⟨a, k, ev⟩
  cases ev <;> cases k <;> simp [KillSwitch.trigger]

/-- C7: on every recorded execute, the anomaly detector replaces the
action's window by its entries younger than `now − 60` plus the current
timestamp (other actions untouched), the thresholds are the claimed
table with default 100, and when the new window length exceeds the
threshold it hands the kill switch a `RATE_LIMIT_EXCEEDED` trigger
(leaving it killed) and returns false, otherwise returns true with the
switch untouched. -/
theorem anomaly_record_C7 (det : AnomalyDetector) (ks : KillSwitch)
    (action : String) (now : Rat) (ts : String) :
    (record_action det ks action now ts).2.1.action_counts action =
      (det.action_counts action).filter (fun t => decide (t > now - 60))
        ++ [now] ∧
    (∀ a, a ≠ action →
      (record_action det ks action now ts).2.1.action_counts a =
        det.action_counts a) ∧
    (threshold "send_email" = 20 ∧ threshold "send_sms" = 30 ∧
     threshold "make_call" = 10 ∧ threshold "send_telegram" = 50 ∧
     threshold "send_slack" = 50) ∧
    (∀ a, a ∉ (["send_email", "send_sms", "make_call", "send_telegram",
        "send_slack"] : List String) → threshold a = 100) ∧
    (if ((det.action_counts action).filter (fun t => decide (t > now - 60))
          ++ [now]).length > threshold action then
       (record_action det ks action now ts).1 = false ∧
       (record_action det ks action now ts).2.2 =
         (ks.trigger .RATE_LIMIT_EXCEEDED
           ("Action " ++ sq ++ action ++ sq ++ " exceeded rate limit: "
             ++ toString (((det.action_counts action).filter
                  (fun t => decide (t > now - 60)) ++ [now]).length)
             ++ "/" ++ toString (threshold action) ++ " per minute")
           "anomaly_detector" ts).2 ∧
       (record_action det ks action now ts).2.2.killed = true
     else
       (record_action det ks action now ts).1 = true ∧
       (record_action det ks action now ts).2.2 = ks) := by
  refine ⟨?_, ?_, ⟨rfl, rfl, rfl, rfl, rfl⟩, ?_, ?_⟩
  · simp only [record_action]
    split <;> simp [setWindow]
  · intro a ha
    simp only [record_action]
    split <;> simp [setWindow, ha]
  · intro a ha
    simp only [List.mem_cons, List.not_mem_nil, or_false, not_or] at ha
    obtain ⟨h1, h2, h3, h4, h5⟩ := ha
    simp [threshold, h1, h2, h3, h4, h5]
  · by_cases hc : ((det.action_counts action).filter
        (fun t => decide (t > now - 60)) ++ [now]).length > threshold action
    · rw [if_pos hc]
      refine ⟨?_, ?_, ?_⟩
      · simp only [record_action]
        rw [if_pos hc]
      · simp only [record_action]
        rw [if_pos hc]
      · simp only [record_action]
        rw [if_pos hc]
        exact trigger_killed ks _ _ _ _
    · rw [if_neg hc]
      constructor
      · simp only [record_action]
        rw [if_neg hc]
      · simp only [record_action]
        rw [if_neg hc]

/-- Witness for C7: the first `send_email` execute on a fresh detector
leaves a one-entry window, is allowed, and the default threshold applies
to unknown actions. -/
theorem anomaly_record_C7_witness :
    (record_action AnomalyDetector.start KillSwitch.start "send_email" 1000
      "2024-01-01T00:00:00+00:00").1 = true ∧
    (record_action AnomalyDetector.start KillSwitch.start "send_email" 1000
      "2024-01-01T00:00:00+00:00").2.1.action_counts "send_email" = [1000] ∧
    threshold "other_action" = 100 := by
  have h := anomaly_record_C7 AnomalyDetector.start KillSwitch.start
    "send_email" 1000 "2024-01-01T00:00:00+00:00"
  refine ⟨?_, ?_, ?_⟩
  · have h5 := h.2.2.2.2
    rw [if_neg (by decide)] at h5
    exact h5.1
  · have h1 := h.1
    simpa [AnomalyDetector.start] using h1
  · exact h.2.2.2.1 "other_action" (by decide)

lemma check_action_below (action : String) (pol : ActionPolicy)
    (hlook : lookupAction action = some pol) (pe : PolicyEngine) (p : Json)
    (h : pe.rate_counts action < rateCapCount pol.rate_limit) :
    (check_action pe action p).1.allowed = true ∧
    (check_action pe action p).2.rate_counts action =
      pe.rate_counts action + 1 := by
  have hrl : check_rate_limit pe action pol.rate_limit =
      (true, ⟨setCount pe.rate_counts action (pe.rate_counts action + 1)⟩) := by
    unfold check_rate_limit
    rw [if_neg (by omega)]
  simp [check_action, hlook, hrl, setCount]

lemma check_action_at_cap (action : String) (pol : ActionPolicy)
    (hlook : lookupAction action = some pol) (pe : PolicyEngine) (p : Json)
    (h : rateCapCount pol.rate_limit ≤ pe.rate_counts action) :
    (check_action pe action p).1.allowed = false ∧
    (check_action pe action p).1.error = some "rate_limited" ∧
    (check_action pe action p).2.rate_counts action =
      pe.rate_counts action := by
  have hrl : check_rate_limit pe action pol.rate_limit = (false, pe) := by
    unfold check_rate_limit
    rw [if_pos h]
  simp [check_action, hlook, hrl]

lemma check_action_mono (action : String) (pe : PolicyEngine) (a : String)
    (p : Json) :
    pe.rate_counts action ≤ (check_action pe a p).2.rate_counts action := by
  rcases hl : lookupAction a with _ | pol
  · simp [check_action, hl]
  · rcases hrl : check_rate_limit pe a pol.rate_limit with ⟨ok, pe'⟩
    have hle : pe.rate_counts action ≤ pe'.rate_counts action := by
      simp only [check_rate_limit] at hrl
      split at hrl
      · cases hrl
        exact le_refl _
      · cases hrl
        by_cases hax : action = a
        · subst hax
          simp [setCount]
        · simp [setCount, hax]
    simp only [check_action, hl, hrl]
    cases ok <;> simp [hle]

lemma checkN_counts (action : String) (pol : ActionPolicy)
    (hlook : lookupAction action = some pol) :
    ∀ (j : Nat) (pe : PolicyEngine),
      pe.rate_counts action ≤ rateCapCount pol.rate_limit →
      (checkN j pe action).rate_counts action =
        min (pe.rate_counts action + j) (rateCapCount pol.rate_limit) := by
  intro j
  induction j with
  | zero =>
      intro pe h
      simp only [checkN]
      omega
  | succ j ih =>
      intro pe h
      by_cases hc : pe.rate_counts action < rateCapCount pol.rate_limit
      · have hb := check_action_below action pol hlook pe (Json.obj []) hc
        simp only [checkN]
        rw [ih _ (by rw [hb.2]; omega), hb.2]
        omega
      · have hcap : rateCapCount pol.rate_limit ≤ pe.rate_counts action := by
          omega
        have ha := check_action_at_cap action pol hlook pe (Json.obj []) hcap
        simp only [checkN]
        rw [ih _ (by rw [ha.2.2]; exact h), ha.2.2]
        omega

/-- C8: for every action in the descriptor table with cap `N` (parsed
from `<N>/<window>`), the per-action counter never decreases under ANY
`check_action` call; a call for the action below the cap is allowed and
adds one; a call at or beyond the cap is refused with `rate_limited`
and leaves the counter alone, with no time-based decay whatsoever —
so from a fresh engine the counter after `j` calls is `min j N`, the
first `N` calls are allowed, and every later call is refused for the
rest of the process (absent `reset_rate_limits`). -/
theorem policy_rate_limit_C8 (action : String) (pol : ActionPolicy)
    (hlook : lookupAction action = some pol) :
    (∀ (pe : PolicyEngine) (a : String) (p : Json),
      pe.rate_counts action ≤ (check_action pe a p).2.rate_counts action) ∧
    (∀ (pe : PolicyEngine) (p : Json),
      pe.rate_counts action < rateCapCount pol.rate_limit →
      (check_action pe action p).1.allowed = true ∧
      (check_action pe action p).2.rate_counts action =
        pe.rate_counts action + 1) ∧
    (∀ (pe : PolicyEngine) (p : Json),
      rateCapCount pol.rate_limit ≤ pe.rate_counts action →
      (check_action pe action p).1.allowed = false ∧
      (check_action pe action p).1.error = some "rate_limited" ∧
      (check_action pe action p).2.rate_counts action =
        pe.rate_counts action) ∧
    (∀ j : Nat, (checkN j PolicyEngine.start action).rate_counts action =
      min j (rateCapCount pol.rate_limit)) ∧
    (∀ j : Nat, j < rateCapCount pol.rate_limit →
      (check_action (checkN j PolicyEngine.start action) action
        (Json.obj [])).1.allowed = true) ∧
    (∀ j : Nat, rateCapCount pol.rate_limit ≤ j →
      (check_action (checkN j PolicyEngine.start action) action
        (Json.obj [])).1.allowed = false ∧
      (check_action (checkN j PolicyEngine.start action) action
        (Json.obj [])).1.error = some "rate_limited") := by
  have hrun : ∀ j : Nat,
      (checkN j PolicyEngine.start action).rate_counts action =
        min j (rateCapCount pol.rate_limit) := by
    intro j
    have := checkN_counts action pol hlook j PolicyEngine.start
      (Nat.zero_le _)
    simpa [PolicyEngine.start] using this
  refine ⟨fun pe a p => check_action_mono action pe a p,
    fun pe p h => check_action_below action pol hlook pe p h,
    fun pe p h => check_action_at_cap action pol hlook pe p h,
    hrun, ?_, ?_⟩
  · intro j hj
    exact (check_action_below action pol hlook _ _ (by rw [hrun j]; omega)).1
  · intro j hj
    have ha := check_action_at_cap action pol hlook
      (checkN j PolicyEngine.start action) (Json.obj [])
      (by rw [hrun j]; omega)
    exact ⟨ha.1, ha.2.1⟩

/-- Witness for C8 on `send_email` (cap 10): ten calls fill the counter,
an early call is allowed, the eleventh is `rate_limited`. -/
theorem policy_rate_limit_C8_witness :
    (checkN 10 PolicyEngine.start "send_email").rate_counts "send_email" =
      10 ∧
    (check_action (checkN 3 PolicyEngine.start "send_email") "send_email"
      (Json.obj [])).1.allowed = true ∧
    (check_action (checkN 10 PolicyEngine.start "send_email") "send_email"
      (Json.obj [])).1.error = some "rate_limited" := by
  have h := policy_rate_limit_C8 "send_email"
    ⟨.APPROVE, "10/hour", "Send email via Gmail API"⟩ (by decide)
  refine ⟨?_, ?_, ?_⟩
  · have hm := h.2.2.2.1 10
    rw [hm]
    decide
  · exact h.2.2.2.2.1 3 (by decide)
  · exact (h.2.2.2.2.2 10 (by decide)).2

end Moltbot
